import Mathlib

/-!
Verification development for the generic REST/SQL gateway
(ApiGenericaFastAPI): a shallow embedding of the dialect-abstraction and
type-coercion layer (forbidden-table policy, schema resolution, JSON
detection, date/datetime narrowing, row-cap truncation, SQL text assembly
and the encryption hooks), with theorems checking the specification's
claims against the embedded code.

Python strings are modelled as Lean `String`s with explicit char-list
implementations of `strip`, `lower`, `startswith`, `split`, `replace`
and substring membership, so that every definition is executable and
provable by computation.
-/

namespace ApiGenerica

/-! ## Python string primitives -/

/-- Whitespace test used by Python `str.strip()`. -/
def pyIsSpace (c : Char) : Bool :=
  c = ' ' || c = '\t' || c = '\n' || c = '\r' || c = '\x0b' || c = '\x0c'

/-- Python `str.strip()`: drop leading and trailing whitespace. -/
def pyStrip (s : String) : String :=
  String.mk (((s.toList.dropWhile pyIsSpace).reverse.dropWhile pyIsSpace).reverse)

/-- Emptiness of a Python string, via its character list. -/
def esVacia (s : String) : Bool :=
  s.toList.isEmpty

/-- Blank test used by the `if not x or not x.strip()` validations. -/
def esBlanco (s : String) : Bool :=
  esVacia s || esVacia (pyStrip s)

/-- Python `str.lower()` (ASCII case folding suffices for this code base). -/
def pyLower (s : String) : String :=
  String.mk (s.toList.map Char.toLower)

/-- Python `s.startswith(p)`. -/
def pyStartsWith (s p : String) : Bool :=
  p.toList.isPrefixOf s.toList

/-- Membership of `sub` as a contiguous substring of `hay` (Python `sub in hay`). -/
def listaContieneSub (hay sub : List Char) : Bool :=
  match hay with
  | [] => sub.isEmpty
  | _ :: rest => sub.isPrefixOf hay || listaContieneSub rest sub

/-- Python `sub in s` for strings. -/
def pyContiene (s sub : String) : Bool :=
  listaContieneSub s.toList sub.toList

/-- Python `s.split(sep)` on a single character separator. -/
def pySplitAux (sep : Char) : List Char → List Char → List (List Char)
  | [], acc => [acc.reverse]
  | c :: rest, acc =>
    if c = sep then acc.reverse :: pySplitAux sep rest []
    else pySplitAux sep rest (c :: acc)

/-- Python `s.split(sep)` (single-character separator). -/
def pySplit (s : String) (sep : Char) : List String :=
  (pySplitAux sep s.toList []).map String.mk

/-- Python `s.replace(pat, rep)` on char lists: replace every
non-overlapping occurrence left to right. Structural recursion on a fuel
that bounds the list length (each step consumes at least one character,
so the fuel never runs out on the initial call). -/
def pyReplaceAux (pat rep : List Char) : Nat → List Char → List Char
  | 0, l => l
  | _ + 1, [] => []
  | fuel + 1, c :: rest =>
    if pat.isPrefixOf (c :: rest) then
      rep ++ pyReplaceAux pat rep fuel (rest.drop (pat.length - 1))
    else
      c :: pyReplaceAux pat rep fuel rest

/-- Python `s.replace(pat, rep)`. -/
def pyReplace (s pat rep : String) : String :=
  String.mk (pyReplaceAux pat.toList rep.toList s.toList.length s.toList)

/-! ## Numeric and temporal parsing (models of the Python builtins used) -/

/-- Digit run to a natural number. -/
def digitosANat (l : List Char) : Nat :=
  l.foldl (fun a c => a * 10 + (c.toNat - 48)) 0

/-- Nonempty all-digit run. -/
def sonDigitos (l : List Char) : Bool :=
  !l.isEmpty && l.all Char.isDigit

/-- Model of Python `int(s)` on strings: optional sign around a digit run,
surrounding whitespace stripped; `none` models the `ValueError`. -/
def parsePyInt (s : String) : Option Int :=
  match (pyStrip s).toList with
  | '-' :: rest => if sonDigitos rest then some (-(digitosANat rest : Int)) else none
  | '+' :: rest => if sonDigitos rest then some ((digitosANat rest : Int)) else none
  | l => if sonDigitos l then some ((digitosANat l : Int)) else none

/-- Decimal digit syntax `digits [. digits]` (at least one digit in total)
to a rational. -/
def parseDecimalSinSigno (l : List Char) : Option Rat :=
  match pySplitAux '.' l [] with
  | [ip] =>
    if sonDigitos ip then some ((digitosANat ip : Int) : Rat) else none
  | [ip, fp] =>
    if ip.all Char.isDigit && fp.all Char.isDigit && !(ip.isEmpty && fp.isEmpty) then
      some (((digitosANat ip * 10 ^ fp.length + digitosANat fp : Nat) : Rat) / ((10 ^ fp.length : Nat) : Rat))
    else none
  | _ => none

/-- Model of Python `float(s)` on the plain decimal forms this code feeds
it; `none` models the `ValueError`. -/
def parsePyFloat (s : String) : Option Rat :=
  match (pyStrip s).toList with
  | '-' :: rest => (parseDecimalSinSigno rest).map Neg.neg
  | '+' :: rest => parseDecimalSinSigno rest
  | l => parseDecimalSinSigno l

/-- Model of Python `decimal.Decimal(s)` on the same plain decimal forms;
`none` models the `decimal.InvalidOperation` conversion failure. -/
def parsePyDecimal (s : String) : Option Rat :=
  match (pyStrip s).toList with
  | '-' :: rest => (parseDecimalSinSigno rest).map Neg.neg
  | '+' :: rest => parseDecimalSinSigno rest
  | l => parseDecimalSinSigno l

/-- `YYYY-MM-DD` with basic range checks, as accepted by
`date.fromisoformat`. -/
def parseFecha10 (l : List Char) : Option (Nat × Nat × Nat) :=
  match l with
  | [a, b, c, d, '-', e, f, '-', g, h] =>
    if [a, b, c, d, e, f, g, h].all Char.isDigit then
      let y := digitosANat [a, b, c, d]
      let m := digitosANat [e, f]
      let dia := digitosANat [g, h]
      if 1 ≤ m && m ≤ 12 && 1 ≤ dia && dia ≤ 31 then some (y, m, dia) else none
    else none
  | _ => none

/-- `HH:MM[:SS]` with range checks, as accepted by `time.fromisoformat`. -/
def parseHora (l : List Char) : Option (Nat × Nat × Nat) :=
  match l with
  | [a, b, ':', c, d] =>
    if [a, b, c, d].all Char.isDigit then
      let hh := digitosANat [a, b]
      let mm := digitosANat [c, d]
      if hh ≤ 23 && mm ≤ 59 then some (hh, mm, 0) else none
    else none
  | [a, b, ':', c, d, ':', e, f] =>
    if [a, b, c, d, e, f].all Char.isDigit then
      let hh := digitosANat [a, b]
      let mm := digitosANat [c, d]
      let ss := digitosANat [e, f]
      if hh ≤ 23 && mm ≤ 59 && ss ≤ 59 then some (hh, mm, ss) else none
    else none
  | _ => none

/-- Drop a trailing UTC offset `±HH:MM` (produced by the code's
`replace('Z', '+00:00')`) from a time part. -/
def quitarDesplazamiento (l : List Char) : List Char :=
  match l.reverse with
  | m2 :: m1 :: ':' :: h2 :: h1 :: '+' :: rest =>
    if [m2, m1, h2, h1].all Char.isDigit then rest.reverse else l
  | m2 :: m1 :: ':' :: h2 :: h1 :: '-' :: rest =>
    if [m2, m1, h2, h1].all Char.isDigit then rest.reverse else l
  | _ => l

/-- Model of Python `datetime.fromisoformat` on the forms this code feeds
it: a bare date, or date `T`/space time with optional offset. Returns
`(y, m, d, hh, mm, ss)`. -/
def parseIsoDatetime (s : String) : Option (Nat × Nat × Nat × Nat × Nat × Nat) :=
  let l := s.toList
  match parseFecha10 l with
  | some (y, m, d) => some (y, m, d, 0, 0, 0)
  | none =>
    match l.take 10, l.drop 10 with
    | fecha, sep :: resto =>
      if sep = 'T' || sep = ' ' then
        match parseFecha10 fecha, parseHora (quitarDesplazamiento resto) with
        | some (y, m, d), some (hh, mm, ss) => some (y, m, d, hh, mm, ss)
        | _, _ => none
      else none
    | _, _ => none

/-- Canonical 8-4-4-4-12 hex shape accepted by Python `uuid.UUID(s)`
(the only use in this code is validity, not arithmetic). -/
def parseUuid (s : String) : Option String :=
  let l := (pyLower s).toList
  let partes := pySplitAux '-' l []
  match partes with
  | [a, b, c, d, e] =>
    if a.length = 8 && b.length = 4 && c.length = 4 && d.length = 4 && e.length = 12 &&
        (a ++ b ++ c ++ d ++ e).all (fun ch => ch.isDigit || ('a' ≤ ch && ch ≤ 'f')) then
      some (String.mk (a ++ ['-'] ++ b ++ ['-'] ++ c ++ ['-'] ++ d ++ ['-'] ++ e))
    else none
  | _ => none

/-! ## Dynamic values (the Python scalars flowing through the gateway) -/

/-- A dynamically-typed Python value as used by the repositories:
null, integer, float, fixed-point decimal, boolean, string, date,
timestamp (with microseconds, which the midnight check ignores),
UUID, JSON object and JSON array. -/
inductive Value where
  | none
  | int (n : Int)
  | float (q : Rat)
  | decimal (q : Rat)
  | bool (b : Bool)
  | str (s : String)
  | date (y m d : Nat)
  | datetime (y m d hh mm ss micro : Nat)
  | uuid (s : String)
  | tiempo (hh mm ss : Nat)
  | dict (campos : List (String × Value))
  | lista (elems : List Value)
deriving Repr

/-- Python exception kinds raised by the embedded conversion code. -/
inductive PyError where
  | valueError
  | typeError
  | invalidOperation
deriving DecidableEq, Repr

/-- Zero-padded two-digit rendering. -/
def pad2 (n : Nat) : String :=
  if n < 10 then "0" ++ toString n else toString n

/-- Zero-padded four-digit rendering. -/
def pad4 (n : Nat) : String :=
  if n < 10 then "000" ++ toString n
  else if n < 100 then "00" ++ toString n
  else if n < 1000 then "0" ++ toString n
  else toString n

/-- `str(date)`: ISO `YYYY-MM-DD`. -/
def fmtFecha (y m d : Nat) : String :=
  pad4 y ++ "-" ++ pad2 m ++ "-" ++ pad2 d

/-- `str(datetime)`: `YYYY-MM-DD HH:MM:SS[.ffffff]`. -/
def fmtFechaHora (y m d hh mm ss micro : Nat) : String :=
  fmtFecha y m d ++ " " ++ pad2 hh ++ ":" ++ pad2 mm ++ ":" ++ pad2 ss ++
    (if micro = 0 then "" else "." ++ toString micro)

/-- Python truthiness `bool(v)` for the values above. -/
def pyTruthy (v : Value) : Bool :=
  match v with
  | .none => false
  | .int n => n ≠ 0
  | .float q => q ≠ 0
  | .decimal q => q ≠ 0
  | .bool b => b
  | .str s => !esVacia s
  | .date _ _ _ => true
  | .datetime _ _ _ _ _ _ _ => true
  | .uuid _ => true
  | .tiempo _ _ _ => true
  | .dict campos => !campos.isEmpty
  | .lista elems => !elems.isEmpty

/-- JSON string escaping for `json.dumps`. -/
def jsonEscape (s : String) : String :=
  String.mk (s.toList.flatMap (fun c =>
    if c = '"' then ['\\', '"']
    else if c = '\\' then ['\\', '\\']
    else [c]))

mutual

/-- Model of `json.dumps(v)` on the value shapes this code serializes. -/
def jsonDumps : Value → String
  | .none => "null"
  | .int n => toString n
  | .float q => toString q
  | .decimal q => toString q
  | .bool b => if b then "true" else "false"
  | .str s => "\"" ++ jsonEscape s ++ "\""
  | .date y m d => "\"" ++ fmtFecha y m d ++ "\""
  | .datetime y m d hh mm ss micro => "\"" ++ fmtFechaHora y m d hh mm ss micro ++ "\""
  | .uuid s => "\"" ++ s ++ "\""
  | .tiempo hh mm ss => "\"" ++ pad2 hh ++ ":" ++ pad2 mm ++ ":" ++ pad2 ss ++ "\""
  | .dict campos => "\x7b" ++ String.intercalate ", " (jsonDumpsCampos campos) ++ "\x7d"
  | .lista elems => "[" ++ String.intercalate ", " (jsonDumpsElems elems) ++ "]"

/-- `json.dumps` over the entries of an object. -/
def jsonDumpsCampos : List (String × Value) → List String
  | [] => []
  | (k, v) :: rest => ("\"" ++ jsonEscape k ++ "\": " ++ jsonDumps v) :: jsonDumpsCampos rest

/-- `json.dumps` over the elements of an array. -/
def jsonDumpsElems : List Value → List String
  | [] => []
  | v :: rest => jsonDumps v :: jsonDumpsElems rest

end

/-- Python `str(v)` as used when the code stringifies a value before
hashing or binding. -/
def pyStr (v : Value) : String :=
  match v with
  | .none => "None"
  | .int n => toString n
  | .float q => toString q
  | .decimal q => toString q
  | .bool b => if b then "True" else "False"
  | .str s => s
  | .date y m d => fmtFecha y m d
  | .datetime y m d hh mm ss micro => fmtFechaHora y m d hh mm ss micro
  | .uuid s => s
  | .tiempo hh mm ss => pad2 hh ++ ":" ++ pad2 mm ++ ":" ++ pad2 ss
  | .dict campos => jsonDumps (.dict campos)
  | .lista elems => jsonDumps (.lista elems)

/-! ## Python dict helpers (insertion-ordered association lists) -/

/-- Python `d[k] = v`: replace in place when the key exists, else append. -/
def dictSet (d : List (String × Value)) (k : String) (v : Value) : List (String × Value) :=
  if d.any (fun kv => kv.1 = k) then
    d.map (fun kv => if kv.1 = k then (k, v) else kv)
  else d ++ [(k, v)]

/-- Python `d.get(k)`. -/
def dictGet (d : List (String × Value)) (k : String) : Option Value :=
  (d.find? (fun kv => kv.1 = k)).map (fun kv => kv.2)

/-! ## Forbidden-table policy (`politica_tablas_prohibidas.py`) -/

/-- Constructor of `PoliticaTablasProhibidas`: parse the configured
comma-separated deny list into the normalized (stripped, lowered) set. -/
def parseTablasProhibidas (cfg : String) : List String :=
  if esVacia cfg then []
  else ((pySplit cfg ',').filter (fun t => !esVacia (pyStrip t))).map
    (fun t => pyLower (pyStrip t))

/-- `es_tabla_permitida`: blank names are never allowed; otherwise the
name is allowed exactly when its lowered, stripped form is not on the
deny list. -/
def es_tabla_permitida (tablasProhibidas : List String) (nombreTabla : String) : Bool :=
  if esBlanco nombreTabla then false
  else !(tablasProhibidas.contains (pyStrip (pyLower nombreTabla)))

/-! ## CRUD service (`servicio_crud.py`) -/

/-- Error kinds surfaced by `ServicioCrud`: `ValueError` for input
validation, `PermissionError` (carrying the offending table name) for the
forbidden-table policy. -/
inductive CrudError where
  | inputValidation (msg : String)
  | accessDenied (tabla : String)
deriving DecidableEq, Repr

/-- `_validar_tabla_permitida`: raise `PermissionError` when the policy
rejects the table. -/
def validarTablaPermitida (prohibidas : List String) (nombreTabla : String) :
    Except CrudError Unit :=
  if es_tabla_permitida prohibidas nombreTabla then .ok ()
  else .error (.accessDenied nombreTabla)

/-- `ServicioCrud.listar`: validations, policy check, then the normalized
arguments delegated to the repository. -/
def servicioCrudListar (prohibidas : List String) (nombreTabla : String)
    (esquema : Option String) (limite : Option Int) :
    Except CrudError (String × Option String × Option Int) :=
  if esBlanco nombreTabla then .error (.inputValidation "nombre de tabla vacio")
  else (validarTablaPermitida prohibidas nombreTabla).bind fun _ =>
    let esquemaNormalizado := match esquema with
      | some e => if !esVacia (pyStrip e) then some (pyStrip e) else Option.none
      | Option.none => Option.none
    let limiteNormalizado := match limite with
      | some l => if l > 0 then some l else Option.none
      | Option.none => Option.none
    .ok (nombreTabla, esquemaNormalizado, limiteNormalizado)

/-- `ServicioCrud.obtener_por_clave`. -/
def servicioCrudObtenerPorClave (prohibidas : List String)
    (nombreTabla nombreClave valor : String) (esquema : Option String) :
    Except CrudError (String × String × String × Option String) :=
  if esBlanco nombreTabla then .error (.inputValidation "nombre de tabla vacio")
  else if esBlanco nombreClave then .error (.inputValidation "nombre de clave vacio")
  else if esBlanco valor then .error (.inputValidation "valor vacio")
  else (validarTablaPermitida prohibidas nombreTabla).bind fun _ =>
    let esquemaNormalizado := match esquema with
      | some e => if !esVacia (pyStrip e) then some (pyStrip e) else Option.none
      | Option.none => Option.none
    .ok (nombreTabla, pyStrip nombreClave, pyStrip valor, esquemaNormalizado)

/-- `ServicioCrud.crear`. -/
def servicioCrudCrear (prohibidas : List String) (nombreTabla : String)
    (datos : List (String × Value)) (esquema : Option String)
    (camposEncriptar : Option String) :
    Except CrudError (String × List (String × Value) × Option String × Option String) :=
  if esBlanco nombreTabla then .error (.inputValidation "nombre de tabla vacio")
  else if datos.isEmpty then .error (.inputValidation "datos vacios")
  else (validarTablaPermitida prohibidas nombreTabla).bind fun _ =>
    let esquemaNormalizado := match esquema with
      | some e => if !esVacia (pyStrip e) then some (pyStrip e) else Option.none
      | Option.none => Option.none
    let camposNorm := match camposEncriptar with
      | some c => if !esVacia (pyStrip c) then some (pyStrip c) else Option.none
      | Option.none => Option.none
    .ok (nombreTabla, datos, esquemaNormalizado, camposNorm)

/-- `ServicioCrud.actualizar`. -/
def servicioCrudActualizar (prohibidas : List String)
    (nombreTabla nombreClave valorClave : String) (datos : List (String × Value))
    (_esquema : Option String) (_camposEncriptar : Option String) :
    Except CrudError (String × String × String × List (String × Value)) :=
  if esBlanco nombreTabla then .error (.inputValidation "nombre de tabla vacio")
  else if esBlanco nombreClave then .error (.inputValidation "nombre de clave vacio")
  else if esBlanco valorClave then .error (.inputValidation "valor de clave vacio")
  else if datos.isEmpty then .error (.inputValidation "datos vacios")
  else (validarTablaPermitida prohibidas nombreTabla).bind fun _ =>
    .ok (nombreTabla, pyStrip nombreClave, pyStrip valorClave, datos)

/-- `ServicioCrud.eliminar`. -/
def servicioCrudEliminar (prohibidas : List String)
    (nombreTabla nombreClave valorClave : String) (_esquema : Option String) :
    Except CrudError (String × String × String) :=
  if esBlanco nombreTabla then .error (.inputValidation "nombre de tabla vacio")
  else if esBlanco nombreClave then .error (.inputValidation "nombre de clave vacio")
  else if esBlanco valorClave then .error (.inputValidation "valor de clave vacio")
  else (validarTablaPermitida prohibidas nombreTabla).bind fun _ =>
    .ok (nombreTabla, pyStrip nombreClave, pyStrip valorClave)

/-! ## PostgreSQL schema resolution (`obtener_esquema_tabla`) -/

/-- One row of `information_schema.tables`, in catalog order. -/
structure CatalogTable where
  schema : String
  name : String
deriving DecidableEq, Repr

/-- `obtener_esquema_tabla` for PostgreSQL: when a schema hint is given
and nonblank, probe `(table, hint)` first (`if resultado:` treats the
empty string like an absent row); otherwise take the first catalog match,
preferring `public` (the `ORDER BY CASE WHEN table_schema = 'public' THEN
0 ELSE 1 END LIMIT 1` query, with non-public ties resolved by catalog
order). Absent tables yield `none`, not an error. -/
def pgObtenerEsquemaTabla (catalogo : List CatalogTable) (nombreTabla : String)
    (esquemaPredeterminado : Option String) : Option String :=
  let general : Option String :=
    let coincidencias := catalogo.filter (fun r => r.name = nombreTabla)
    match (coincidencias.filter (fun r => r.schema = "public")).head? with
    | some r => some r.schema
    | Option.none => coincidencias.head?.map (fun r => r.schema)
  match esquemaPredeterminado with
  | some e =>
    if !esVacia (pyStrip e) then
      match ((catalogo.filter (fun r => r.name = nombreTabla ∧ r.schema = e)).head?).map
          (fun r => r.schema) with
      | some s => if esVacia s then general else some s
      | Option.none => general
    else general
  | Option.none => general

/-! ## Python numeric casts over dynamic values -/

/-- Model of Python `int(v)`: ints and bools pass, floats and decimals
truncate toward zero, strings parse (`ValueError` on failure), everything
else raises `TypeError`. -/
def pyIntDe (v : Value) : Except PyError Value :=
  match v with
  | .int n => .ok (.int n)
  | .bool b => .ok (.int (if b then 1 else 0))
  | .float q => .ok (.int (q.num.tdiv (q.den : Int)))
  | .decimal q => .ok (.int (q.num.tdiv (q.den : Int)))
  | .str s =>
    match parsePyInt s with
    | some n => .ok (.int n)
    | Option.none => .error .valueError
  | _ => .error .typeError

/-- Model of Python `float(v)`: numbers and bools widen, strings parse
(`ValueError` on failure), everything else raises `TypeError`. -/
def pyFloatDe (v : Value) : Except PyError Value :=
  match v with
  | .int n => .ok (.float (n : Rat))
  | .bool b => .ok (.float (if b then 1 else 0))
  | .float q => .ok (.float q)
  | .decimal q => .ok (.float q)
  | .str s =>
    match parsePyFloat s with
    | some q => .ok (.float q)
    | Option.none => .error .valueError
  | _ => .error .typeError

/-! ## PostgreSQL query repository: JSON detection and parameter coercion
(`repositorio_consultas_postgresql.py`) -/

/-- `_es_json` (PostgreSQL): by catalog type json/jsonb, by content
(trimmed string starting with a brace or bracket) or by common JSON
parameter name plus content. -/
def pgEsJson (tipo nombreParam : String) (valor : Value) : Bool :=
  let tipoLower := pyLower tipo
  if tipoLower = "json" || tipoLower = "jsonb" then true
  else
    match valor with
    | .str s =>
      if !esVacia (pyStrip s) then
        let nombreLower := pyLower nombreParam
        let valorTrim := pyStrip s
        if pyStartsWith valorTrim "\x7b" || pyStartsWith valorTrim "[" then true
        else if (["roles", "detalles", "json", "data"].any fun x => pyContiene nombreLower x) &&
            (pyStartsWith valorTrim "\x7b" || pyStartsWith valorTrim "[") then true
        else false
      else false
    | _ => false

/-- `_convertir_valor_segun_tipo` (PostgreSQL): coerce a routine
parameter value using its catalog type. -/
def pgConvertirValorSegunTipo (valor : Value) (tipo nombreParam : String) :
    Except PyError Value :=
  match valor with
  | .none => .ok .none
  | _ =>
    let tipoLower := pyLower tipo
    if pgEsJson tipo nombreParam valor then
      match valor with
      | .dict campos => .ok (.str (jsonDumps (.dict campos)))
      | .lista elems => .ok (.str (jsonDumps (.lista elems)))
      | v => .ok (.str (pyStr v))
    else if tipoLower = "integer" || tipoLower = "int" || tipoLower = "int4" then
      pyIntDe valor
    else if tipoLower = "bigint" || tipoLower = "int8" then
      pyIntDe valor
    else if tipoLower = "numeric" || tipoLower = "decimal" then
      pyFloatDe valor
    else if tipoLower = "character varying" || tipoLower = "varchar" || tipoLower = "text" then
      .ok (.str (pyStr valor))
    else if tipoLower = "boolean" || tipoLower = "bool" then
      match valor with
      | .bool b => .ok (.bool b)
      | .str s => .ok (.bool (["true", "1", "yes", "si"].contains (pyLower s)))
      | v => .ok (.bool (pyTruthy v))
    else if tipoLower = "date" then
      match valor with
      | .datetime y m d _ _ _ _ => .ok (.date y m d)
      | v => .ok v
    else .ok valor

/-! ## SQL Server query repository (`repositorio_consultas_sqlserver.py`) -/

/-- `_es_json` (SQL Server): `nvarchar(max)` (max length -1) plays the
role of the json type; content and name detection as in PostgreSQL. -/
def ssEsJson (tipo : String) (maxLength : Option Int) (nombreParam : String)
    (valor : Value) : Bool :=
  if pyLower tipo = "nvarchar" && maxLength = some (-1) then true
  else
    match valor with
    | .str s =>
      if !esVacia (pyStrip s) then
        let nombreLower := pyLower nombreParam
        let valorTrim := pyStrip s
        if pyStartsWith valorTrim "\x7b" || pyStartsWith valorTrim "[" then true
        else if (["roles", "detalles", "json", "data"].any fun x => pyContiene nombreLower x) &&
            (pyStartsWith valorTrim "\x7b" || pyStartsWith valorTrim "[") then true
        else false
      else false
    | _ => false

/-- `_convertir_valor_segun_tipo` (SQL Server): coerce a routine
parameter value using its catalog type; a `date`-typed datetime is
narrowed only when its time-of-day is exactly 00:00:00. -/
def ssConvertirValorSegunTipo (valor : Value) (tipo : String)
    (maxLength : Option Int) (nombreParam : String) : Except PyError Value :=
  match valor with
  | .none => .ok .none
  | _ =>
    let tipoLower := pyLower tipo
    if ssEsJson tipo maxLength nombreParam valor then
      .ok (.str (pyStr valor))
    else if tipoLower = "varchar" || tipoLower = "nvarchar" || tipoLower = "char" ||
        tipoLower = "nchar" then
      .ok (.str (pyStr valor))
    else if tipoLower = "date" then
      match valor with
      | .datetime y m d hh mm ss _ =>
        if hh = 0 && mm = 0 && ss = 0 then .ok (.date y m d) else .ok valor
      | .date y m d => .ok (.date y m d)
      | v => .ok v
    else if tipoLower = "int" then
      pyIntDe valor
    else if tipoLower = "bigint" then
      pyIntDe valor
    else if tipoLower = "decimal" || tipoLower = "numeric" then
      pyFloatDe valor
    else if tipoLower = "bit" then
      match valor with
      | .bool b => .ok (.bool b)
      | .str s => .ok (.bool (["true", "1", "yes", "si"].contains (pyLower s)))
      | v => .ok (.bool (pyTruthy v))
    else .ok valor

/-- `_convertir_datetime_a_date_si_aplica` (SQL Server; defined in the
source but never called): narrow a midnight datetime when the column type
is `date`. -/
def ssConvertirDatetimeADateSiAplica (valor : Value) (tipoColumna : String) : Value :=
  match valor with
  | .datetime y m d hh mm ss _ =>
    if hh = 0 && mm = 0 && ss = 0 then
      if pyLower tipoColumna = "date" then .date y m d else valor
    else valor
  | v => v

/-- The date-only engine type condition of the specification's narrowing
heuristic (the type the `date` branches of the parameter coercions test
for). -/
def esTipoSoloFecha (tipo : String) : Bool :=
  pyLower tipo = "date"

/-! ## Ad-hoc parametrized query preparation (all engines) -/

/-- The per-value conversion inside the PostgreSQL
`ejecutar_consulta_parametrizada_con_dictionary` loop: a datetime whose
time-of-day is 00:00:00 becomes a date, with no type metadata consulted. -/
def pgAdHocConvertirValor (valor : Value) : Value :=
  match valor with
  | .datetime y m d hh mm ss _ =>
    if hh = 0 && mm = 0 && ss = 0 then .date y m d else valor
  | v => v

/-- The same per-value conversion inside the SQL Server
`ejecutar_consulta_parametrizada_con_dictionary` loop. -/
def ssAdHocConvertirValor (valor : Value) : Value :=
  match valor with
  | .datetime y m d hh mm ss _ =>
    if hh = 0 && mm = 0 && ss = 0 then .date y m d else valor
  | v => v

/-- `_convertir_valor` (MySQL/MariaDB): applied to every query and
procedure parameter; narrows any midnight datetime, with no type
metadata consulted. -/
def mysqlConvertirValor (valor : Value) : Value :=
  match valor with
  | .none => .none
  | .datetime y m d hh mm ss _ =>
    if hh = 0 && mm = 0 && ss = 0 then .date y m d else valor
  | v => v

/-- The PostgreSQL ad-hoc parameter loop: rewrite each `@name` to `$N`
and collect the converted values in order. -/
def pgPrepararConsultaAux : String → Nat → List (String × Value) → String × List Value
  | consulta, _, [] => (consulta, [])
  | consulta, idx, (nombreParam, valor) :: rest =>
    let nombre := if pyStartsWith nombreParam "@" then nombreParam else "@" ++ nombreParam
    let valorConvertido := pgAdHocConvertirValor valor
    let consulta2 := pyReplace consulta nombre ("$" ++ toString idx)
    let resto := pgPrepararConsultaAux consulta2 (idx + 1) rest
    (resto.1, valorConvertido :: resto.2)

/-- `ejecutar_consulta_parametrizada_con_dictionary` (PostgreSQL), SQL
side: the rewritten statement and ordered value list. -/
def pgPrepararConsulta (consultaSql : String) (parametros : List (String × Value)) :
    String × List Value :=
  pgPrepararConsultaAux consultaSql 1 parametros

/-- The SQL Server ad-hoc parameter loop: rewrite each `@name` to `?`. -/
def ssPrepararConsultaAux : String → List (String × Value) → String × List Value
  | consulta, [] => (consulta, [])
  | consulta, (nombreParam, valor) :: rest =>
    let nombre := if pyStartsWith nombreParam "@" then nombreParam else "@" ++ nombreParam
    let valorConvertido := ssAdHocConvertirValor valor
    let consulta2 := pyReplace consulta nombre "?"
    let resto := ssPrepararConsultaAux consulta2 rest
    (resto.1, valorConvertido :: resto.2)

/-- `ejecutar_consulta_parametrizada_con_dictionary` (SQL Server), SQL
side. -/
def ssPrepararConsulta (consultaSql : String) (parametros : List (String × Value)) :
    String × List Value :=
  ssPrepararConsultaAux consultaSql parametros

/-- The MySQL ad-hoc parameter loop: rewrite each `@name` to `%s`. -/
def mysqlPrepararConsultaAux : String → List (String × Value) → String × List Value
  | consulta, [] => (consulta, [])
  | consulta, (nombreParam, valor) :: rest =>
    let nombre := if pyStartsWith nombreParam "@" then nombreParam else "@" ++ nombreParam
    let valorConvertido := mysqlConvertirValor valor
    let consulta2 := pyReplace consulta nombre "%s"
    let resto := mysqlPrepararConsultaAux consulta2 rest
    (resto.1, valorConvertido :: resto.2)

/-- `ejecutar_consulta_parametrizada_con_dictionary` (MySQL/MariaDB), SQL
side. -/
def mysqlPrepararConsulta (consultaSql : String) (parametros : List (String × Value)) :
    String × List Value :=
  mysqlPrepararConsultaAux consultaSql parametros

/-! ## Row-cap truncation (`rows[:maximo_registros]` and the controller
flag) -/

/-- A result row: column name to value, in projection order. -/
def Row : Type := List (String × Value)

/-- The repository default for `maximo_registros`. -/
def maximoRegistrosPorDefecto : Nat := 10000

/-- The `rows[:maximo_registros]` slice applied by every engine's ad-hoc
query execution (the call sites only ever pass nonnegative caps, so the
Python slice is exactly a prefix). -/
def limitarFilas (rows : List Row) (maximoRegistros : Nat) : List Row :=
  rows.take maximoRegistros

/-- The controller's `Advertencia` field: set exactly when the result
length equals the (hard-coded 10000) cap. -/
def consultasAdvertenciaActiva (resultado : List Row) : Bool :=
  resultado.length == 10000

/-! ## PostgreSQL read repository (`repositorio_lectura_postgresql.py`) -/

/-- Python `x or d` on an optional string: `None` and the empty string
are falsy. -/
def pyOr (o : Option String) (d : String) : String :=
  match o with
  | some s => if esVacia s then d else s
  | Option.none => d

/-- `_extraer_solo_fecha`: parse the date part of an ISO string (the
whole string when it carries a `T` time, else its first ten characters). -/
def pgExtraerSoloFecha (valor : String) : Except PyError Value :=
  if pyContiene valor "T" then
    match parseIsoDatetime (pyReplace valor "Z" "+00:00") with
    | some (y, m, d, _, _, _) => .ok (.date y m d)
    | Option.none => .error .valueError
  else
    match parseFecha10 (valor.toList.take 10) with
    | some (y, m, d) => .ok (.date y m d)
    | Option.none => .error .valueError

/-- `_es_fecha_sin_hora`: ten characters, two dashes, no `T`, no colon. -/
def pgEsFechaSinHora (valor : String) : Bool :=
  valor.toList.length = 10 && (valor.toList.filter (fun c => c = '-')).length = 2 &&
    !valor.toList.contains 'T' && !valor.toList.contains ':'

/-- `_convertir_valor` (PostgreSQL), the legacy string-input conversion
path: the catalog type (already lowered by `_detectar_tipo_columna`)
selects a parse; the surrounding `except (ValueError, TypeError)` turns
those two failures back into the raw string, while any other exception
(notably `decimal.InvalidOperation`) escapes. -/
def pgConvertirValor (valor : String) (tipoDestino : Option String) :
    Except PyError Value :=
  match tipoDestino with
  | Option.none => .ok (.str valor)
  | some tipo =>
    let cuerpo : Except PyError Value :=
      if tipo = "integer" || tipo = "int4" || tipo = "bigint" || tipo = "int8" ||
          tipo = "smallint" || tipo = "int2" then
        match parsePyInt valor with
        | some n => .ok (.int n)
        | Option.none => .error .valueError
      else if tipo = "numeric" || tipo = "decimal" then
        match parsePyDecimal valor with
        | some q => .ok (.decimal q)
        | Option.none => .error .invalidOperation
      else if tipo = "real" || tipo = "float4" || tipo = "double precision" ||
          tipo = "float8" then
        match parsePyFloat valor with
        | some q => .ok (.float q)
        | Option.none => .error .valueError
      else if tipo = "boolean" || tipo = "bool" then
        .ok (.bool (["true", "1", "yes", "si", "t"].contains (pyLower valor)))
      else if tipo = "uuid" then
        match parseUuid valor with
        | some u => .ok (.uuid u)
        | Option.none => .error .valueError
      else if tipo = "date" then
        pgExtraerSoloFecha valor
      else if tipo = "timestamp without time zone" || tipo = "timestamp with time zone" then
        match parseIsoDatetime (pyReplace valor "Z" "+00:00") with
        | some (y, m, d, hh, mm, ss) => .ok (.datetime y m d hh mm ss 0)
        | Option.none => .error .valueError
      else if tipo = "time" then
        match parseHora valor.toList with
        | some (hh, mm, ss) => .ok (.tiempo hh mm ss)
        | Option.none => .error .valueError
      else
        .ok (.str valor)
    match cuerpo with
    | .error .valueError => .ok (.str valor)
    | .error .typeError => .ok (.str valor)
    | r => r

/-- `obtener_por_clave` (PostgreSQL), SQL side: a `CAST("col" AS DATE)`
template when the column is timestamp-typed and the supplied value is a
bare ten-character date, a plain equality template otherwise; the value
itself only ever travels through the `:valor` placeholder. -/
def pgObtenerPorClaveSql (esquema : Option String) (nombreTabla nombreClave : String)
    (tipoColumna : Option String) (valor : String) : String :=
  let esquemaFinal := pyStrip (pyOr esquema "public")
  let esBusquedaFechaEnTimestamp :=
    (tipoColumna = some "timestamp without time zone" ||
      tipoColumna = some "timestamp with time zone") && pgEsFechaSinHora valor
  if esBusquedaFechaEnTimestamp then
    "SELECT * FROM \"" ++ esquemaFinal ++ "\".\"" ++ nombreTabla ++
      "\" WHERE CAST(\"" ++ nombreClave ++ "\" AS DATE) = :valor"
  else
    "SELECT * FROM \"" ++ esquemaFinal ++ "\".\"" ++ nombreTabla ++
      "\" WHERE \"" ++ nombreClave ++ "\" = :valor"

/-- `obtener_por_clave` (PostgreSQL), bound-value side. -/
def pgObtenerPorClaveValor (tipoColumna : Option String) (valor : String) :
    Except PyError Value :=
  if (tipoColumna = some "timestamp without time zone" ||
      tipoColumna = some "timestamp with time zone") && pgEsFechaSinHora valor then
    pgExtraerSoloFecha valor
  else
    pgConvertirValor valor tipoColumna

/-- The encrypt-list parse shared by `crear` and `actualizar`: split the
comma-separated field list, strip and lower each entry (a falsy
`campos_encriptar` leaves the data untouched). -/
def pgCamposAEncriptar (camposEncriptar : Option String) : List String :=
  match camposEncriptar with
  | some ce =>
    if esVacia ce then []
    else ((pySplit ce ',').filter (fun c => !esVacia (pyStrip c))).map
      (fun c => pyLower (pyStrip c))
  | Option.none => []

/-- The encryption loop of `crear`/`actualizar` (PostgreSQL): every truthy
value whose lowered column name is listed is replaced by
`encriptar(str(valor))`, with no already-hashed check. The BCrypt
collaborator is the function argument `encriptar`. -/
def pgAplicarEncriptacion (encriptar : String → String) (datos : List (String × Value))
    (camposEncriptar : Option String) : List (String × Value) :=
  let campos := pgCamposAEncriptar camposEncriptar
  datos.map fun kv =>
    if campos.contains (pyLower kv.1) && pyTruthy kv.2 then
      (kv.1, .str (encriptar (pyStr kv.2)))
    else kv

/-- `crear` (PostgreSQL), SQL side: built from the schema, table and the
keys of the (post-encryption) data map only. -/
def pgCrearSql (esquema : Option String) (nombreTabla : String)
    (datosFinales : List (String × Value)) : String :=
  let esquemaFinal := pyStrip (pyOr esquema "public")
  let columnas := String.intercalate ", " (datosFinales.map fun kv => "\"" ++ kv.1 ++ "\"")
  let parametros := String.intercalate ", " (datosFinales.map fun kv => ":" ++ kv.1)
  "INSERT INTO \"" ++ esquemaFinal ++ "\".\"" ++ nombreTabla ++ "\" (" ++ columnas ++
    ") VALUES (" ++ parametros ++ ")"

/-- `actualizar` (PostgreSQL), SQL side. -/
def pgActualizarSql (esquema : Option String) (nombreTabla nombreClave : String)
    (datosFinales : List (String × Value)) : String :=
  let esquemaFinal := pyStrip (pyOr esquema "public")
  let clausulaSet := String.intercalate ", "
    (datosFinales.map fun kv => "\"" ++ kv.1 ++ "\" = :" ++ kv.1)
  "UPDATE \"" ++ esquemaFinal ++ "\".\"" ++ nombreTabla ++ "\" SET " ++ clausulaSet ++
    " WHERE \"" ++ nombreClave ++ "\" = :valor_clave"

/-- `eliminar` (PostgreSQL), SQL side (the key value travels through the
`:valor_clave` placeholder and does not reach the text at all). -/
def pgEliminarSql (esquema : Option String) (nombreTabla nombreClave : String) : String :=
  let esquemaFinal := pyStrip (pyOr esquema "public")
  "DELETE FROM \"" ++ esquemaFinal ++ "\".\"" ++ nombreTabla ++ "\" WHERE \"" ++
    nombreClave ++ "\" = :valor_clave"

/-- `eliminar` (PostgreSQL), full statement: the rendered SQL text paired
with the converted key value bound to the `:valor_clave` placeholder
(the source builds the text before converting the value). -/
def pgEliminarDeclaracion (esquema : Option String) (nombreTabla nombreClave : String)
    (tipoClave : Option String) (valorClave : String) :
    String × Except PyError Value :=
  (pgEliminarSql esquema nombreTabla nombreClave, pgConvertirValor valorClave tipoClave)

/-! ## PostgreSQL routine invocation
(`ejecutar_procedimiento_almacenado_con_dictionary`) -/

/-- One row of routine parameter metadata: name, mode (`IN`, `OUT`,
`INOUT`) and catalog type. -/
structure ParamMeta where
  nombre : String
  modo : String
  tipo : String
deriving DecidableEq, Repr

/-- Python `s.split(sep, 1)`: split at the first separator only. -/
def dividirEnPrimero (s : String) (sep : Char) : String × String :=
  let l := s.toList
  (String.mk (l.takeWhile (fun c => c ≠ sep)),
    String.mk ((l.dropWhile (fun c => c ≠ sep)).drop 1))

/-- Schema extraction from a routine name (`ventas.mi_funcion`). -/
def pgSepararEsquema (nombreSp : String) : Option String × String :=
  if pyContiene nombreSp "." then
    let p := dividirEnPrimero nombreSp '.'
    (some (pyStrip p.1), pyStrip p.2)
  else (Option.none, nombreSp)

/-- `IN`/`INOUT` parameters participate in the call. -/
def esEntrada (m : ParamMeta) : Bool :=
  m.modo = "IN" || m.modo = "INOUT"

/-- The SQL text of the routine call: `SELECT * FROM sch.fn($1, ...)`
when the catalog marked the routine a `FUNCTION` (a missing or falsy
`routine_type` defaults to `PROCEDURE`), else `CALL sch.sp($1, ...)`;
placeholders count the IN/INOUT parameters only. -/
def pgSpLlamadaSql (nombreSp : String) (rutinaTipoMeta : Option String)
    (metadatos : List ParamMeta) : String :=
  let sep := pgSepararEsquema nombreSp
  let tipoRutina := pyOr rutinaTipoMeta "PROCEDURE"
  let entrada := metadatos.filter esEntrada
  let placeholders := String.intercalate ", "
    ((List.range entrada.length).map fun i => "$" ++ toString (i + 1))
  let nombreCompleto := match sep.1 with
    | some e => if esVacia e then sep.2 else e ++ "." ++ sep.2
    | Option.none => sep.2
  if tipoRutina = "FUNCTION" then
    "SELECT * FROM " ++ nombreCompleto ++ "(" ++ placeholders ++ ")"
  else
    "CALL " ++ nombreCompleto ++ "(" ++ placeholders ++ ")"

/-- The `clave[1:] if clave.startswith("@") else clave` normalization. -/
def quitarArroba (clave : String) : String :=
  if pyStartsWith clave "@" then String.mk (clave.toList.drop 1) else clave

/-- Caller parameter normalization: drop a leading `@`, lower the key,
later duplicates overwriting earlier ones (Python dict assignment). -/
def normalizarParametros (parametros : List (String × Value)) : List (String × Value) :=
  parametros.foldl (fun acc kv =>
    dictSet acc (pyLower (quitarArroba kv.1)) kv.2) []

/-- The ordered value list of the routine call: one converted value per
IN/INOUT parameter, looked up by lowered name (`None` when absent);
OUT-only parameters contribute nothing. -/
def pgSpValores (metadatos : List ParamMeta) (parametros : List (String × Value)) :
    Except PyError (List Value) :=
  let normalizados := normalizarParametros parametros
  (metadatos.filter esEntrada).mapM fun m =>
    let valor := match dictGet normalizados (pyLower m.nombre) with
      | some v => v
      | Option.none => Value.none
    pgConvertirValorSegunTipo valor m.tipo m.nombre

/-! ## Query service (`servicio_consultas.py`) -/

/-- The `^@\w+$` check of `_convertir_parametros_desde_json`. -/
def esNombreParamValido (nombre : String) : Bool :=
  match nombre.toList with
  | '@' :: rest => !rest.isEmpty && rest.all (fun c => c.isAlphanum || c = '_')
  | _ => false

/-- `_detectar_tipo_desde_string`: try ISO datetime, then int, then
float, then the `true`/`false` strings; otherwise keep the string. -/
def detectarTipoDesdeString (valor : String) : Value :=
  if esVacia valor then .str valor
  else
    match parseIsoDatetime (pyReplace valor "Z" "+00:00") with
    | some (y, m, d, hh, mm, ss) => .datetime y m d hh mm ss 0
    | Option.none =>
      match parsePyInt valor with
      | some n => .int n
      | Option.none =>
        match parsePyFloat valor with
        | some q => .float q
        | Option.none =>
          if pyLower valor = "true" || pyLower valor = "false" then
            .bool (pyLower valor = "true")
          else .str valor

/-- `_detectar_tipo`: native ints, floats, bools and datetimes pass
through; strings go through string detection. -/
def detectarTipo (valor : Value) : Value :=
  match valor with
  | .str s => detectarTipoDesdeString s
  | v => v

/-- `_convertir_parametros_desde_json`: prepend `@` when missing,
validate the name (`ValueError` otherwise), detect the value type. -/
def convertirParametrosDesdeJson (parametros : List (String × Value)) :
    Except PyError (List (String × Value)) :=
  parametros.foldlM (fun acc kv =>
    let nombre := if pyStartsWith kv.1 "@" then kv.1 else "@" ++ kv.1
    if !esNombreParamValido nombre then
      .error .valueError
    else
      .ok (dictSet acc nombre (detectarTipo kv.2))) []

/-- One iteration of the `_convertir_parametros_con_encriptacion` loop:
the listed field (with `@` prepended when missing) is re-bound to
`encriptar(valor)` only when present, a nonempty string, and not already
carrying the BCrypt `$2` marker. -/
def pasoEncriptacionParametro (encriptar : String → String)
    (acc : List (String × Value)) (campo : String) : List (String × Value) :=
  let clave := if pyStartsWith campo "@" then campo else "@" ++ campo
  match dictGet acc clave with
  | some (Value.str s) =>
    if !esVacia s && !(pyStartsWith s "$2") then
      dictSet acc clave (.str (encriptar s))
    else acc
  | _ => acc

/-- The encryption loop of `_convertir_parametros_con_encriptacion`. -/
def aplicarEncriptacionParametros (encriptar : String → String)
    (parametrosGenericos : List (String × Value)) (camposAEncriptar : List String) :
    List (String × Value) :=
  camposAEncriptar.foldl (pasoEncriptacionParametro encriptar) parametrosGenericos

/-- `_convertir_parametros_con_encriptacion` (the routine-parameter
encryption site). -/
def convertirParametrosConEncriptacion (encriptar : String → String)
    (parametros : List (String × Value)) (camposAEncriptar : List String) :
    Except PyError (List (String × Value)) :=
  (convertirParametrosDesdeJson parametros).map
    (fun genericos => aplicarEncriptacionParametros encriptar genericos camposAEncriptar)

/-! ## Claim theorems -/


/-- Claim C10: for every empty or whitespace-only table name, the
forbidden-table policy's allowed check returns false, even when the
configured deny list is empty. -/
theorem es_tabla_permitida_nombre_blanco :
    ∀ (prohibidas : List String) (nombre : String),
      esVacia (pyStrip nombre) = true → es_tabla_permitida prohibidas nombre = false := by
  intro prohibidas nombre h
  simp [es_tabla_permitida, esBlanco, h]

/-- Witness for claim C10. -/
theorem es_tabla_permitida_nombre_blanco_testigo :
    esVacia (pyStrip "   ") = true ∧ es_tabla_permitida [] "   " = false :=
  ⟨by decide, es_tabla_permitida_nombre_blanco [] "   " (by decide)⟩

/-- Claim C5: every table name on the configured deny list makes listRows
and every other CRUD operation raise the access-denied error, with
case-insensitive matching (USUARIOS_SISTEMA is denied when
usuarios_sistema is listed); with an empty deny list every (nonblank)
table is allowed. -/
theorem tablas_prohibidas_crud :
    (∀ (prohibidas : List String) (nombre : String) (esquema : Option String) (limite : Option Int),
      esBlanco nombre = false →
      prohibidas.contains (pyStrip (pyLower nombre)) = true →
      servicioCrudListar prohibidas nombre esquema limite = .error (.accessDenied nombre)) ∧
    (∀ (prohibidas : List String) (nombre clave valor : String) (esquema : Option String),
      esBlanco nombre = false → esBlanco clave = false → esBlanco valor = false →
      prohibidas.contains (pyStrip (pyLower nombre)) = true →
      servicioCrudObtenerPorClave prohibidas nombre clave valor esquema =
        .error (.accessDenied nombre)) ∧
    (∀ (prohibidas : List String) (nombre : String) (datos : List (String × Value))
        (esquema campos : Option String),
      esBlanco nombre = false → datos.isEmpty = false →
      prohibidas.contains (pyStrip (pyLower nombre)) = true →
      servicioCrudCrear prohibidas nombre datos esquema campos =
        .error (.accessDenied nombre)) ∧
    (∀ (prohibidas : List String) (nombre clave valorClave : String)
        (datos : List (String × Value)) (esquema campos : Option String),
      esBlanco nombre = false → esBlanco clave = false → esBlanco valorClave = false →
      datos.isEmpty = false →
      prohibidas.contains (pyStrip (pyLower nombre)) = true →
      servicioCrudActualizar prohibidas nombre clave valorClave datos esquema campos =
        .error (.accessDenied nombre)) ∧
    (∀ (prohibidas : List String) (nombre clave valorClave : String) (esquema : Option String),
      esBlanco nombre = false → esBlanco clave = false → esBlanco valorClave = false →
      prohibidas.contains (pyStrip (pyLower nombre)) = true →
      servicioCrudEliminar prohibidas nombre clave valorClave esquema =
        .error (.accessDenied nombre)) ∧
    (servicioCrudListar (parseTablasProhibidas "usuarios_sistema") "USUARIOS_SISTEMA"
      Option.none Option.none = .error (.accessDenied "USUARIOS_SISTEMA")) ∧
    (∀ (nombre : String) (esquema : Option String) (limite : Option Int),
      esBlanco nombre = false →
      ∃ r, servicioCrudListar [] nombre esquema limite = .ok r) := by
  refine ⟨?_, ?_, ?_, ?_, ?_, ?_, ?_⟩
  · intro prohibidas nombre esquema limite hb hd
    have hd2 : pyStrip (pyLower nombre) ∈ prohibidas := by simpa using hd
    simp [servicioCrudListar, hb, validarTablaPermitida, es_tabla_permitida, hd2, Except.bind]
  · intro prohibidas nombre clave valor esquema hb hc hv hd
    have hd2 : pyStrip (pyLower nombre) ∈ prohibidas := by simpa using hd
    simp [servicioCrudObtenerPorClave, hb, hc, hv, validarTablaPermitida,
      es_tabla_permitida, hd2, Except.bind]
  · intro prohibidas nombre datos esquema campos hb hdv hd
    have hd2 : pyStrip (pyLower nombre) ∈ prohibidas := by simpa using hd
    simp [servicioCrudCrear, hb, hdv, validarTablaPermitida, es_tabla_permitida, hd2, Except.bind]
  · intro prohibidas nombre clave valorClave datos esquema campos hb hc hv hdv hd
    have hd2 : pyStrip (pyLower nombre) ∈ prohibidas := by simpa using hd
    simp [servicioCrudActualizar, hb, hc, hv, hdv, validarTablaPermitida,
      es_tabla_permitida, hd2, Except.bind]
  · intro prohibidas nombre clave valorClave esquema hb hc hv hd
    have hd2 : pyStrip (pyLower nombre) ∈ prohibidas := by simpa using hd
    simp [servicioCrudEliminar, hb, hc, hv, validarTablaPermitida,
      es_tabla_permitida, hd2, Except.bind]
  · rfl
  · intro nombre esquema limite hb
    simp [servicioCrudListar, hb, validarTablaPermitida, es_tabla_permitida, Except.bind]

/-- Witness for claim C5. -/
theorem tablas_prohibidas_crud_testigo :
    esBlanco "usuarios_sistema" = false ∧
    (parseTablasProhibidas "usuarios_sistema").contains
      (pyStrip (pyLower "usuarios_sistema")) = true ∧
    servicioCrudListar (parseTablasProhibidas "usuarios_sistema") "usuarios_sistema"
      Option.none Option.none = .error (.accessDenied "usuarios_sistema") ∧
    ∃ r, servicioCrudListar [] "clientes" Option.none Option.none = .ok r :=
  ⟨by decide, by decide,
    tablas_prohibidas_crud.1 _ "usuarios_sistema" Option.none Option.none (by decide) (by decide),
    tablas_prohibidas_crud.2.2.2.2.2.2 "clientes" Option.none Option.none (by decide)⟩

/-- Claim C4: ad-hoc query execution returns at most maxRows rows
(default cap 10,000, modelled by the total prefix slice — rows beyond
the cap are dropped, never an error); a 10,050-row result with cap
10,000 returns exactly 10,000 rows with the controller truncation flag
set; a 9,999-row result is returned whole with the flag clear; and the
flag is set exactly when the produced row count reached the cap. -/
theorem limite_filas_consulta :
    (∀ (rows : List Row) (maximoRegistros : Nat),
      (limitarFilas rows maximoRegistros).length ≤ maximoRegistros) ∧
    (limitarFilas (List.replicate 10050 ([] : List (String × Value))) 10000).length = 10000 ∧
    consultasAdvertenciaActiva
      (limitarFilas (List.replicate 10050 ([] : List (String × Value))) 10000) = true ∧
    limitarFilas (List.replicate 9999 ([] : List (String × Value))) 10000 =
      List.replicate 9999 ([] : List (String × Value)) ∧
    consultasAdvertenciaActiva
      (limitarFilas (List.replicate 9999 ([] : List (String × Value))) 10000) = false ∧
    (∀ rows : List Row,
      consultasAdvertenciaActiva (limitarFilas rows maximoRegistrosPorDefecto) = true ↔
        maximoRegistrosPorDefecto ≤ rows.length) := by
  refine ⟨?_, ?_, ?_, ?_, ?_, ?_⟩
  · intro rows maximoRegistros
    simp only [limitarFilas, List.length_take]
    omega
  · rw [limitarFilas, List.take_replicate]
    norm_num
  · rw [consultasAdvertenciaActiva, limitarFilas, List.take_replicate]
    norm_num
  · rw [limitarFilas, List.take_replicate]
    norm_num
  · rw [consultasAdvertenciaActiva, limitarFilas, List.take_replicate]
    norm_num
  · intro rows
    simp only [consultasAdvertenciaActiva, limitarFilas, List.length_take,
      maximoRegistrosPorDefecto, beq_iff_eq]
    omega

/-- The head of a successful filter: existence, membership, and the
predicate. -/
theorem filter_head_existe {α : Type} {p : α → Bool} {l : List α} {x : α}
    (hx : x ∈ l) (hp : p x = true) :
    ∃ r, (l.filter p).head? = some r ∧ r ∈ l ∧ p r = true := by
  have hne : l.filter p ≠ [] := by
    intro hnil
    have hm := List.mem_filter.mpr ⟨hx, hp⟩
    simp [hnil] at hm
  cases h : (l.filter p).head? with
  | none => exact absurd (List.head?_eq_none_iff.mp h) hne
  | some r =>
    have hr := List.mem_of_mem_head? h
    exact ⟨r, rfl, (List.mem_filter.mp hr).1, (List.mem_filter.mp hr).2⟩

/-- Claim C6: resolveSchema probes in a fixed preference order: a table
present in both the default (public) schema and a non-default schema
resolves, without a hint, to the default schema; a table present only in
a non-default schema resolves to that schema; an absent table resolves
to an absent result rather than an error; and a nonblank schema hint
naming a schema that contains the table is returned as given. -/
theorem resolver_esquema_preferencias :
    (∀ (catalogo : List CatalogTable) (t : String),
      (⟨"public", t⟩ : CatalogTable) ∈ catalogo →
      pgObtenerEsquemaTabla catalogo t Option.none = some "public") ∧
    (∀ (catalogo : List CatalogTable) (t s : String),
      (⟨s, t⟩ : CatalogTable) ∈ catalogo →
      (∀ r ∈ catalogo, r.name = t → r.schema = s) →
      pgObtenerEsquemaTabla catalogo t Option.none = some s) ∧
    (∀ (catalogo : List CatalogTable) (t : String),
      (∀ r ∈ catalogo, r.name ≠ t) →
      pgObtenerEsquemaTabla catalogo t Option.none = Option.none) ∧
    (∀ (catalogo : List CatalogTable) (t e : String),
      esVacia e = false → esVacia (pyStrip e) = false →
      (⟨e, t⟩ : CatalogTable) ∈ catalogo →
      pgObtenerEsquemaTabla catalogo t (some e) = some e) := by
  refine ⟨?_, ?_, ?_, ?_⟩
  · intro catalogo t hmem
    obtain ⟨r, hh, hrl, hrp⟩ :=
      filter_head_existe (p := fun r : CatalogTable => decide (r.schema = "public"))
        (l := catalogo.filter (fun r => decide (r.name = t)))
        (x := ⟨"public", t⟩) (List.mem_filter.mpr ⟨hmem, by simp⟩) (by simp)
    have hs : r.schema = "public" := by simpa using hrp
    simp only [pgObtenerEsquemaTabla]
    rw [hh]
    simp [hs]
  · intro catalogo t s hmem huniq
    cases h : ((catalogo.filter (fun r => decide (r.name = t))).filter
        (fun r => decide (r.schema = "public"))).head? with
    | none =>
      obtain ⟨r, hh, hrl, hrp⟩ :=
        filter_head_existe (p := fun r : CatalogTable => decide (r.name = t))
          (l := catalogo) (x := ⟨s, t⟩) hmem (by simp)
      have hs : r.schema = s := huniq r hrl (by simpa using hrp)
      simp only [pgObtenerEsquemaTabla]
      rw [h, hh]
      simp [hs]
    | some r =>
      have hr := List.mem_of_mem_head? h
      have h1 := List.mem_filter.mp hr
      have h2 := List.mem_filter.mp h1.1
      have hn : r.name = t := by simpa using h2.2
      have hs : r.schema = s := huniq r h2.1 hn
      simp only [pgObtenerEsquemaTabla]
      rw [h]
      simp [hs]
  · intro catalogo t hnone
    have hco : catalogo.filter (fun r => decide (r.name = t)) = [] :=
      List.filter_eq_nil_iff.mpr (fun r hr => by simp [hnone r hr])
    simp [pgObtenerEsquemaTabla, hco]
  · intro catalogo t e he hes hmem
    obtain ⟨r, hh, hrl, hrp⟩ :=
      filter_head_existe (p := fun r : CatalogTable => decide (r.name = t ∧ r.schema = e))
        (l := catalogo) (x := ⟨e, t⟩) hmem (by simp)
    have hs : r.schema = e := (of_decide_eq_true hrp).2
    simp only [pgObtenerEsquemaTabla, hes, Bool.not_false, if_true]
    rw [hh]
    simp [hs, he]

/-- Witness for claim C6. -/
theorem resolver_esquema_preferencias_testigo :
    pgObtenerEsquemaTabla [⟨"ventas", "pedidos"⟩, ⟨"public", "pedidos"⟩] "pedidos"
        Option.none = some "public" ∧
    pgObtenerEsquemaTabla [⟨"ventas", "pedidos"⟩] "pedidos" Option.none = some "ventas" ∧
    pgObtenerEsquemaTabla [⟨"ventas", "pedidos"⟩] "clientes" Option.none = Option.none ∧
    pgObtenerEsquemaTabla [⟨"ventas", "pedidos"⟩, ⟨"public", "pedidos"⟩] "pedidos"
        (some "ventas") = some "ventas" :=
  ⟨resolver_esquema_preferencias.1 _ _ (by simp),
   resolver_esquema_preferencias.2.1 _ _ "ventas" (by simp) (by decide),
   resolver_esquema_preferencias.2.2.1 _ _ (by decide),
   resolver_esquema_preferencias.2.2.2 _ _ "ventas" (by decide) (by decide) (by simp)⟩

/-- A string with a nonempty starting pattern cannot be empty. -/
theorem pyStartsWith_de_vacia {p : String} {c : Char} {rest : List Char}
    (hp : p.toList = c :: rest) {s : String} (hs : esVacia s = true) :
    pyStartsWith s p = false := by
  have h0 : s.data = [] := by simpa [esVacia, String.toList] using hs
  have hp2 : p.data = c :: rest := by simpa [String.toList] using hp
  simp [pyStartsWith, String.toList, hp2, h0, List.isPrefixOf]

/-- Boolean characterization of `_es_json` on string values: the
name-vocabulary clause is absorbed by the content clause. -/
theorem pgEsJson_str (tipo nombreParam s : String) :
    pgEsJson tipo nombreParam (.str s) =
      ((pyLower tipo = "json" || pyLower tipo = "jsonb") ||
        (pyStartsWith (pyStrip s) "\x7b" || pyStartsWith (pyStrip s) "[")) := by
  by_cases h1 : (pyLower tipo = "json" || pyLower tipo = "jsonb") = true
  · simp [pgEsJson, h1]
  · by_cases h2 : esVacia (pyStrip s) = true
    · have hb := @pyStartsWith_de_vacia "\x7b" '\x7b' [] rfl _ h2
      have hc := @pyStartsWith_de_vacia "[" '[' [] rfl _ h2
      simp [pgEsJson, h1, h2, hb, hc]
    · by_cases h3 : (pyStartsWith (pyStrip s) "\x7b" || pyStartsWith (pyStrip s) "[") = true
      · simp [pgEsJson, h1, h2, h3]
      · simp [pgEsJson, h1, h2, h3]

/-- Claim C7: a routine parameter is detected as JSON exactly when (a)
its catalog type is json/jsonb, or (b) its supplied string value,
trimmed, starts with a brace or bracket, or (c) its name contains one of
roles/detalles/json/data and its trimmed value starts with a brace or
bracket; concretely, a parameter named detalles with a JSON-object value
is detected and passed through unchanged, while the same parameter with
value hello is treated as a plain string. -/
theorem deteccion_json_caracterizacion :
    (∀ (tipo nombreParam : String) (valor : Value),
      pgEsJson tipo nombreParam valor = true ↔
        ((pyLower tipo = "json" ∨ pyLower tipo = "jsonb") ∨
        (∃ s, valor = .str s ∧
          (pyStartsWith (pyStrip s) "\x7b" = true ∨ pyStartsWith (pyStrip s) "[" = true)) ∨
        (∃ s, valor = .str s ∧
          (["roles", "detalles", "json", "data"].any fun x =>
            pyContiene (pyLower nombreParam) x) = true ∧
          (pyStartsWith (pyStrip s) "\x7b" = true ∨ pyStartsWith (pyStrip s) "[" = true)))) ∧
    pgEsJson "text" "detalles" (.str "\x7b\"a\":1\x7d") = true ∧
    pgConvertirValorSegunTipo (.str "\x7b\"a\":1\x7d") "text" "detalles" =
      .ok (.str "\x7b\"a\":1\x7d") ∧
    pgEsJson "text" "detalles" (.str "hello") = false ∧
    pgConvertirValorSegunTipo (.str "hello") "text" "detalles" = .ok (.str "hello") := by
  refine ⟨?_, by decide, by rfl, by decide, by rfl⟩
  intro tipo nombreParam valor
  cases valor with
  | str s =>
    rw [pgEsJson_str]
    simp only [Bool.or_eq_true, decide_eq_true_eq]
    constructor
    · rintro (h | h)
      · exact Or.inl h
      · exact Or.inr (Or.inl ⟨s, rfl, h⟩)
    · rintro (h | ⟨s2, hs2, h⟩ | ⟨s2, hs2, hn, h⟩)
      · exact Or.inl h
      · cases hs2
        exact Or.inr h
      · cases hs2
        exact Or.inr h
  | none => simp [pgEsJson]
  | int n => simp [pgEsJson]
  | float q => simp [pgEsJson]
  | decimal q => simp [pgEsJson]
  | bool b => simp [pgEsJson]
  | date y m d => simp [pgEsJson]
  | datetime y m d hh mm ss micro => simp [pgEsJson]
  | uuid u => simp [pgEsJson]
  | tiempo hh mm ss => simp [pgEsJson]
  | dict campos => simp [pgEsJson]
  | lista elems => simp [pgEsJson]

/-- A string starts with its own prefix. -/
theorem pyStartsWith_append_propio (p r : String) : pyStartsWith (p ++ r) p = true := by
  have hd : (p ++ r).data = p.data ++ r.data := rfl
  rw [pyStartsWith, String.toList, String.toList, hd, List.isPrefixOf_iff_prefix]
  exact List.prefix_append _ _

/-- `mapM` over `Except` preserves length on success. -/
theorem mapM_except_longitud {α β ε : Type} (f : α → Except ε β) :
    ∀ (l : List α) (vs : List β), l.mapM f = .ok vs → vs.length = l.length := by
  intro l
  induction l with
  | nil =>
    intro vs h
    simp only [List.mapM_nil, pure, Except.pure, Except.ok.injEq] at h
    simp [← h]
  | cons a rest ih =>
    intro vs h
    rw [List.mapM_cons] at h
    cases hfa : f a with
    | error e => rw [hfa] at h; simp [Bind.bind, Except.bind] at h
    | ok b =>
      rw [hfa] at h
      cases hrest : rest.mapM f with
      | error e => rw [hrest] at h; simp [Bind.bind, Except.bind] at h
      | ok bs =>
        rw [hrest] at h
        simp only [Bind.bind, Except.bind, pure, Except.pure, Except.ok.injEq] at h
        rw [← h]
        simp [ih bs hrest]

/-- `mapM` only looks at the function's values on list members. -/
theorem mapM_except_congr {α β ε : Type} {f g : α → Except ε β} :
    ∀ {l : List α}, (∀ a ∈ l, f a = g a) → l.mapM f = l.mapM g := by
  intro l
  induction l with
  | nil => intro _; rfl
  | cons a rest ih =>
    intro h
    rw [List.mapM_cons, List.mapM_cons, h a (by simp),
      ih (fun x hx => h x (by simp [hx]))]

/-- Setting one dict key leaves lookups of other keys unchanged. -/
theorem dictGet_dictSet_distinta (d : List (String × Value)) (k k2 : String) (v : Value)
    (h : k2 ≠ k) : dictGet (dictSet d k v) k2 = dictGet d k2 := by
  have hkk : decide (k = k2) = false := by
    simp only [decide_eq_false_iff_not]
    exact fun hcon => h hcon.symm
  unfold dictSet
  by_cases ha : (d.any fun kv => decide (kv.1 = k)) = true
  · rw [if_pos ha]
    clear ha
    unfold dictGet
    induction d with
    | nil => rfl
    | cons a rest ih =>
      by_cases hak : a.1 = k
      · have h2 : decide (a.1 = k2) = false := by
          simp only [decide_eq_false_iff_not, hak]
          exact fun hcon => h hcon.symm
        simp only [List.map_cons]
        rw [if_pos hak]
        simp only [List.find?_cons, hkk, h2]
        exact ih
      · simp only [List.map_cons]
        rw [if_neg hak]
        by_cases ha2 : a.1 = k2
        · simp [List.find?_cons, ha2]
        · have h2 : decide (a.1 = k2) = false := by simp [ha2]
          simp only [List.find?_cons, h2]
          exact ih
  · rw [if_neg ha]
    unfold dictGet
    rw [List.find?_append]
    have h0 : List.find? (fun kv => decide (kv.1 = k2)) [(k, v)] = none := by
      simp [List.find?_cons, hkk]
    rw [h0]
    simp

/-- A string whose character data extends the pattern starts with it. -/
theorem pyStartsWith_de_datos (p s : String) (r : List Char) (h : s.data = p.data ++ r) :
    pyStartsWith s p = true := by
  rw [pyStartsWith, String.toList, String.toList, h, List.isPrefixOf_iff_prefix]
  exact List.prefix_append _ _

/-- The four-way appends produced by the call builder start with their
leading literal. -/
theorem pyStartsWith_append4 (p a b c d : String) :
    pyStartsWith (p ++ a ++ b ++ c ++ d) p = true := by
  apply pyStartsWith_de_datos _ _ (a.data ++ (b.data ++ (c.data ++ d.data)))
  have hd : (p ++ a ++ b ++ c ++ d).data =
      ((((p.data ++ a.data) ++ b.data) ++ c.data) ++ d.data) := rfl
  rw [hd]
  simp [List.append_assoc]

/-- Differing first characters refute a starts-with. -/
theorem pyStartsWith_primera_letra (s p : String) (a b : Char) (ra rb : List Char)
    (hs : s.data = a :: ra) (hp : p.data = b :: rb) (hab : (b == a) = false) :
    pyStartsWith s p = false := by
  rw [pyStartsWith, String.toList, String.toList, hs, hp]
  simp [List.isPrefixOf, hab]

/-- A CALL statement never reads as a SELECT. -/
theorem pyStartsWith_call_no_select (a b c d : String) :
    pyStartsWith ("CALL " ++ a ++ b ++ c ++ d) "SELECT * FROM " = false := by
  apply pyStartsWith_primera_letra _ _ 'C' 'S'
    ("ALL ".data ++ a.data ++ b.data ++ c.data ++ d.data) ("ELECT * FROM ".data)
  · rfl
  · rfl
  · decide

/-- The `resultado_tipo or "PROCEDURE"` default is `FUNCTION` exactly for
the `FUNCTION` metadata row. -/
theorem pyOr_funcion (o : Option String) :
    (pyOr o "PROCEDURE" = "FUNCTION") ↔ o = some "FUNCTION" := by
  cases o with
  | none =>
    simp only [pyOr]
    constructor
    · intro hcon; exact absurd hcon (by decide)
    · intro hcon; cases hcon
  | some s =>
    simp only [pyOr, Option.some.injEq]
    by_cases hs : esVacia s = true
    · rw [if_pos hs]
      constructor
      · intro hcon; exact absurd hcon (by decide)
      · intro hcon; rw [hcon] at hs; exact absurd hs (by decide)
    · rw [if_neg hs]

/-- Appending one caller parameter only touches its normalized key. -/
theorem normalizarParametros_append (parametros : List (String × Value)) (k : String)
    (v : Value) :
    normalizarParametros (parametros ++ [(k, v)]) =
      dictSet (normalizarParametros parametros) (pyLower (quitarArroba k)) v := by
  simp [normalizarParametros, List.foldl_append]

/-- Claim C8: the routine call renders the SELECT * FROM form exactly
when catalog metadata marks the routine a FUNCTION (otherwise the CALL
form), and the ordered argument list is built from IN and INOUT
parameters only: its length is the IN/INOUT count and supplying an
extra parameter whose normalized key matches no IN/INOUT parameter name
leaves the value list unchanged. -/
theorem despacho_rutina :
    (∀ (nombreSp : String) (rutinaTipoMeta : Option String) (metadatos : List ParamMeta),
      pyStartsWith (pgSpLlamadaSql nombreSp rutinaTipoMeta metadatos) "SELECT * FROM " = true ↔
        rutinaTipoMeta = some "FUNCTION") ∧
    (∀ (nombreSp : String) (rutinaTipoMeta : Option String) (metadatos : List ParamMeta),
      rutinaTipoMeta ≠ some "FUNCTION" →
      pyStartsWith (pgSpLlamadaSql nombreSp rutinaTipoMeta metadatos) "CALL " = true) ∧
    (∀ (metadatos : List ParamMeta) (parametros : List (String × Value)) (vs : List Value),
      pgSpValores metadatos parametros = .ok vs →
      vs.length = (metadatos.filter esEntrada).length) ∧
    (∀ (metadatos : List ParamMeta) (parametros : List (String × Value)) (k : String) (v : Value),
      (∀ m ∈ metadatos.filter esEntrada, pyLower m.nombre ≠ pyLower (quitarArroba k)) →
      pgSpValores metadatos (parametros ++ [(k, v)]) = pgSpValores metadatos parametros) := by
  refine ⟨?_, ?_, ?_, ?_⟩
  · intro nombreSp rutinaTipoMeta metadatos
    rw [← pyOr_funcion]
    by_cases h : pyOr rutinaTipoMeta "PROCEDURE" = "FUNCTION"
    · simp only [pgSpLlamadaSql]
      rw [if_pos h]
      simp [pyStartsWith_append4, h]
    · simp only [pgSpLlamadaSql]
      rw [if_neg h]
      simp [pyStartsWith_call_no_select, h]
  · intro nombreSp rutinaTipoMeta metadatos h
    have h2 : ¬ pyOr rutinaTipoMeta "PROCEDURE" = "FUNCTION" := fun hcon =>
      h ((pyOr_funcion rutinaTipoMeta).mp hcon)
    simp only [pgSpLlamadaSql]
    rw [if_neg h2]
    exact pyStartsWith_append4 "CALL " _ _ _ _
  · intro metadatos parametros vs h
    simp only [pgSpValores] at h
    exact mapM_except_longitud _ _ _ h
  · intro metadatos parametros k v hk
    simp only [pgSpValores, normalizarParametros_append]
    apply mapM_except_congr
    intro m hm
    rw [dictGet_dictSet_distinta _ _ _ _ (hk m hm)]

/-- Witness for claim C8. -/
theorem despacho_rutina_testigo :
    pyStartsWith (pgSpLlamadaSql "calcular_total" (some "FUNCTION")
      [⟨"id", "IN", "integer"⟩]) "SELECT * FROM " = true ∧
    pyStartsWith (pgSpLlamadaSql "registrar_venta" (some "PROCEDURE")
      [⟨"id", "IN", "integer"⟩, ⟨"total", "OUT", "numeric"⟩]) "CALL " = true ∧
    pgSpValores [⟨"id", "IN", "integer"⟩, ⟨"total", "OUT", "numeric"⟩]
      [("id", .int 5), ("total", .int 99)] = .ok [.int 5] ∧
    ([(⟨"id", "IN", "integer"⟩ : ParamMeta), ⟨"total", "OUT", "numeric"⟩].filter
      esEntrada).length = 1 ∧
    pgSpValores [⟨"id", "IN", "integer"⟩] ([("id", .int 5)] ++ [("extra", .int 7)]) =
      pgSpValores [⟨"id", "IN", "integer"⟩] [("id", .int 5)] :=
  ⟨(despacho_rutina.1 "calcular_total" (some "FUNCTION") [⟨"id", "IN", "integer"⟩]).mpr rfl,
   despacho_rutina.2.1 "registrar_venta" (some "PROCEDURE")
     [⟨"id", "IN", "integer"⟩, ⟨"total", "OUT", "numeric"⟩] (by decide),
   by rfl,
   by rfl,
   despacho_rutina.2.2.2 [⟨"id", "IN", "integer"⟩] [("id", .int 5)] "extra" (.int 7)
     (by decide)⟩

/-- `_es_json` on a datetime value reduces to the catalog-type test. -/
theorem pgEsJson_datetime (tipo nombreParam : String) (y m d hh mm ss micro : Nat) :
    pgEsJson tipo nombreParam (.datetime y m d hh mm ss micro) =
      (pyLower tipo = "json" || pyLower tipo = "jsonb") := by
  by_cases h1 : (pyLower tipo = "json" || pyLower tipo = "jsonb") = true
  · simp [pgEsJson, h1]
  · simp [pgEsJson, h1]

/-- The full value of the PostgreSQL parameter coercion on a datetime. -/
theorem pgConvertirValorSegunTipo_datetime (tipo nombreParam : String)
    (y m d hh mm ss micro : Nat) :
    pgConvertirValorSegunTipo (.datetime y m d hh mm ss micro) tipo nombreParam =
      if pyLower tipo = "json" || pyLower tipo = "jsonb" then
        .ok (.str (pyStr (.datetime y m d hh mm ss micro)))
      else if pyLower tipo = "integer" || pyLower tipo = "int" || pyLower tipo = "int4" then
        .error .typeError
      else if pyLower tipo = "bigint" || pyLower tipo = "int8" then
        .error .typeError
      else if pyLower tipo = "numeric" || pyLower tipo = "decimal" then
        .error .typeError
      else if pyLower tipo = "character varying" || pyLower tipo = "varchar" ||
          pyLower tipo = "text" then
        .ok (.str (pyStr (.datetime y m d hh mm ss micro)))
      else if pyLower tipo = "boolean" || pyLower tipo = "bool" then
        .ok (.bool true)
      else if pyLower tipo = "date" then
        .ok (.date y m d)
      else
        .ok (.datetime y m d hh mm ss micro) := by
  simp only [pgConvertirValorSegunTipo, pgEsJson_datetime, pyIntDe, pyFloatDe, pyTruthy]

/-- `_es_json` (SQL Server) on a datetime value reduces to the
nvarchar(max) test. -/
theorem ssEsJson_datetime (tipo : String) (maxLength : Option Int) (nombreParam : String)
    (y m d hh mm ss micro : Nat) :
    ssEsJson tipo maxLength nombreParam (.datetime y m d hh mm ss micro) =
      (pyLower tipo = "nvarchar" && maxLength = some (-1)) := by
  by_cases h1 : (pyLower tipo = "nvarchar" && maxLength = some (-1)) = true
  · simp [ssEsJson, h1]
  · simp [ssEsJson, h1]

/-- The full value of the SQL Server parameter coercion on a datetime. -/
theorem ssConvertirValorSegunTipo_datetime (tipo : String) (maxLength : Option Int)
    (nombreParam : String) (y m d hh mm ss micro : Nat) :
    ssConvertirValorSegunTipo (.datetime y m d hh mm ss micro) tipo maxLength nombreParam =
      if pyLower tipo = "nvarchar" && maxLength = some (-1) then
        .ok (.str (pyStr (.datetime y m d hh mm ss micro)))
      else if pyLower tipo = "varchar" || pyLower tipo = "nvarchar" ||
          pyLower tipo = "char" || pyLower tipo = "nchar" then
        .ok (.str (pyStr (.datetime y m d hh mm ss micro)))
      else if pyLower tipo = "date" then
        (if hh = 0 && mm = 0 && ss = 0 then .ok (.date y m d)
          else .ok (.datetime y m d hh mm ss micro))
      else if pyLower tipo = "int" then
        .error .typeError
      else if pyLower tipo = "bigint" then
        .error .typeError
      else if pyLower tipo = "decimal" || pyLower tipo = "numeric" then
        .error .typeError
      else if pyLower tipo = "bit" then
        .ok (.bool true)
      else
        .ok (.datetime y m d hh mm ss micro) := by
  simp only [ssConvertirValorSegunTipo, ssEsJson_datetime, pyIntDe, pyFloatDe, pyTruthy]

/-- Counterexample to claim C1: at the ad-hoc parameter binding site the
code consults no type metadata at all, so a midnight timestamp is
narrowed to a date even when the target engine type is the (not
date-only) timestamp type — refuting narrowing happening exactly when
the target type is date-only. -/
theorem narrowing_fecha_cx :
    pgAdHocConvertirValor (.datetime 2024 1 15 0 0 0 0) = .date 2024 1 15 ∧
    esTipoSoloFecha "timestamp without time zone" = false :=
  ⟨rfl, by decide⟩

/-- Claim C1 as amended: the ad-hoc binding loops of all engines (and
every MySQL binding) narrow every midnight datetime unconditionally,
with no type metadata consulted; only the PostgreSQL and SQL Server
routine-parameter coercions narrow a midnight datetime exactly when the
catalog type is the date-only type, as does the SQL Server helper that
the source defines but never calls. -/
theorem narrowing_fecha_amended :
    (∀ y m d micro, pgAdHocConvertirValor (.datetime y m d 0 0 0 micro) = .date y m d) ∧
    (∀ y m d micro, ssAdHocConvertirValor (.datetime y m d 0 0 0 micro) = .date y m d) ∧
    (∀ y m d micro, mysqlConvertirValor (.datetime y m d 0 0 0 micro) = .date y m d) ∧
    (∀ (tipo nombreParam : String) (y m d micro : Nat),
      pgConvertirValorSegunTipo (.datetime y m d 0 0 0 micro) tipo nombreParam =
        .ok (.date y m d) ↔ esTipoSoloFecha tipo = true) ∧
    (∀ (tipo : String) (maxLength : Option Int) (nombreParam : String) (y m d micro : Nat),
      ssConvertirValorSegunTipo (.datetime y m d 0 0 0 micro) tipo maxLength nombreParam =
        .ok (.date y m d) ↔ esTipoSoloFecha tipo = true) ∧
    (∀ (tipoColumna : String) (y m d micro : Nat),
      ssConvertirDatetimeADateSiAplica (.datetime y m d 0 0 0 micro) tipoColumna =
        (if esTipoSoloFecha tipoColumna = true then .date y m d
          else .datetime y m d 0 0 0 micro)) := by
  refine ⟨?_, ?_, ?_, ?_, ?_, ?_⟩
  · intro y m d micro
    simp [pgAdHocConvertirValor]
  · intro y m d micro
    simp [ssAdHocConvertirValor]
  · intro y m d micro
    simp [mysqlConvertirValor]
  · intro tipo nombreParam y m d micro
    rw [pgConvertirValorSegunTipo_datetime]
    simp only [esTipoSoloFecha]
    by_cases hA : (pyLower tipo = "json" || pyLower tipo = "jsonb") = true
    · rcases (by simpa using hA : pyLower tipo = "json" ∨ pyLower tipo = "jsonb") with h | h <;>
        simp [hA, h]
    · rw [if_neg hA]
      by_cases hB : (pyLower tipo = "integer" || pyLower tipo = "int" ||
          pyLower tipo = "int4") = true
      · rcases (by simpa using hB :
            (pyLower tipo = "integer" ∨ pyLower tipo = "int") ∨ pyLower tipo = "int4") with
          (h | h) | h <;> simp [hB, h]
      · rw [if_neg hB]
        by_cases hC : (pyLower tipo = "bigint" || pyLower tipo = "int8") = true
        · rcases (by simpa using hC : pyLower tipo = "bigint" ∨ pyLower tipo = "int8") with
            h | h <;> simp [hC, h]
        · rw [if_neg hC]
          by_cases hD : (pyLower tipo = "numeric" || pyLower tipo = "decimal") = true
          · rcases (by simpa using hD : pyLower tipo = "numeric" ∨ pyLower tipo = "decimal") with
              h | h <;> simp [hD, h]
          · rw [if_neg hD]
            by_cases hE : (pyLower tipo = "character varying" || pyLower tipo = "varchar" ||
                pyLower tipo = "text") = true
            · rcases (by simpa using hE : (pyLower tipo = "character varying" ∨
                  pyLower tipo = "varchar") ∨ pyLower tipo = "text") with (h | h) | h <;>
                simp [hE, h]
            · rw [if_neg hE]
              by_cases hF : (pyLower tipo = "boolean" || pyLower tipo = "bool") = true
              · rcases (by simpa using hF : pyLower tipo = "boolean" ∨ pyLower tipo = "bool") with
                  h | h <;> simp [hF, h]
              · rw [if_neg hF]
                by_cases hG : pyLower tipo = "date"
                · simp [hG]
                · simp [hG]
  · intro tipo maxLength nombreParam y m d micro
    rw [ssConvertirValorSegunTipo_datetime]
    simp only [esTipoSoloFecha]
    by_cases hA : (pyLower tipo = "nvarchar" && maxLength = some (-1)) = true
    · have h : pyLower tipo = "nvarchar" := by
        have := hA
        simp only [Bool.and_eq_true] at this
        simpa using this.1
      simp [hA, h]
    · rw [if_neg hA]
      by_cases hB : (pyLower tipo = "varchar" || pyLower tipo = "nvarchar" ||
          pyLower tipo = "char" || pyLower tipo = "nchar") = true
      · rcases (by simpa using hB : ((pyLower tipo = "varchar" ∨ pyLower tipo = "nvarchar") ∨
            pyLower tipo = "char") ∨ pyLower tipo = "nchar") with ((h | h) | h) | h <;>
          simp [hB, h]
      · rw [if_neg hB]
        by_cases hC : pyLower tipo = "date"
        · simp [hC]
        · rw [if_neg hC]
          by_cases hD : pyLower tipo = "int"
          · simp [hD]
          · rw [if_neg hD]
            by_cases hE : pyLower tipo = "bigint"
            · simp [hE]
            · rw [if_neg hE]
              by_cases hF : (pyLower tipo = "decimal" || pyLower tipo = "numeric") = true
              · rcases (by simpa using hF : pyLower tipo = "decimal" ∨
                    pyLower tipo = "numeric") with h | h <;> simp [hF, h]
              · rw [if_neg hF]
                by_cases hG : pyLower tipo = "bit"
                · simp [hG, hC]
                · simp [hG, hC]
  · intro tipoColumna y m d micro
    simp only [ssConvertirDatetimeADateSiAplica, esTipoSoloFecha]
    by_cases h : pyLower tipoColumna = "date"
    · simp [h]
    · simp [h]

/-- Witness for claim C1 (amended): concrete instances of each site. -/
theorem narrowing_fecha_amended_testigo :
    pgAdHocConvertirValor (.datetime 2024 1 15 0 0 0 0) = .date 2024 1 15 ∧
    mysqlConvertirValor (.datetime 2024 1 15 0 0 0 0) = .date 2024 1 15 ∧
    (pgConvertirValorSegunTipo (.datetime 2024 1 15 0 0 0 0) "date" "fecha" =
      .ok (.date 2024 1 15) ↔ esTipoSoloFecha "date" = true) ∧
    (ssConvertirValorSegunTipo (.datetime 2024 1 15 0 0 0 0) "datetime" Option.none "fecha" =
      .ok (.date 2024 1 15) ↔ esTipoSoloFecha "datetime" = true) :=
  ⟨narrowing_fecha_amended.1 2024 1 15 0,
   narrowing_fecha_amended.2.2.1 2024 1 15 0,
   narrowing_fecha_amended.2.2.2.1 "date" "fecha" 2024 1 15 0,
   narrowing_fecha_amended.2.2.2.2.1 "datetime" Option.none "fecha" 2024 1 15 0⟩

/-- Mapping a key-only function over maps with equal key lists agrees. -/
theorem map_fst_congr {β : Type} (f : String → β) :
    ∀ (d1 d2 : List (String × Value)), d1.map Prod.fst = d2.map Prod.fst →
      d1.map (fun kv => f kv.1) = d2.map (fun kv => f kv.1) := by
  intro d1
  induction d1 with
  | nil =>
    intro d2 h
    cases d2 with
    | nil => rfl
    | cons b bs => simp at h
  | cons a as ih =>
    intro d2 h
    cases d2 with
    | nil => simp at h
    | cons b bs =>
      simp only [List.map_cons, List.cons.injEq] at h ⊢
      exact ⟨by rw [h.1], ih bs h.2⟩

/-- The ad-hoc rewrite only reads parameter names, never values. -/
theorem pgPrepararConsultaAux_solo_nombres :
    ∀ (params1 params2 : List (String × Value)) (consulta : String) (idx : Nat),
      params1.map Prod.fst = params2.map Prod.fst →
      (pgPrepararConsultaAux consulta idx params1).1 =
        (pgPrepararConsultaAux consulta idx params2).1 := by
  intro params1
  induction params1 with
  | nil =>
    intro p2 c idx h
    cases p2 with
    | nil => rfl
    | cons b bs => simp at h
  | cons a as ih =>
    intro p2 c idx h
    cases p2 with
    | nil => simp at h
    | cons b bs =>
      simp only [List.map_cons, List.cons.injEq] at h
      simp only [pgPrepararConsultaAux, h.1]
      exact ih bs _ _ h.2

/-- Counterexample to claim C2: the single-key lookup renders different
SQL text for two values with the same table, schema and column, because
the date-shape of the value selects between the CAST template and the
plain template. -/
theorem sql_texto_valores_cx :
    pgObtenerPorClaveSql Option.none "ordenes" "fecha" (some "timestamp without time zone")
        "2024-01-15" ≠
      pgObtenerPorClaveSql Option.none "ordenes" "fecha" (some "timestamp without time zone")
        "hello" := by
  decide

/-- Claim C2 as amended: insert, update, delete and ad-hoc query SQL
text depends only on identifiers and parameter names (values travel
exclusively through placeholders), while the single-key lookup text
depends on the value only through the boolean ten-character date-shape
test that switches between its two fixed templates. -/
theorem sql_texto_valores_amended :
    (∀ (esquema : Option String) (tabla : String) (datos1 datos2 : List (String × Value)),
      datos1.map Prod.fst = datos2.map Prod.fst →
      pgCrearSql esquema tabla datos1 = pgCrearSql esquema tabla datos2) ∧
    (∀ (esquema : Option String) (tabla clave : String)
        (datos1 datos2 : List (String × Value)),
      datos1.map Prod.fst = datos2.map Prod.fst →
      pgActualizarSql esquema tabla clave datos1 = pgActualizarSql esquema tabla clave datos2) ∧
    (∀ (esquema : Option String) (tabla clave : String) (tipoClave : Option String)
        (valor1 valor2 : String),
      (pgEliminarDeclaracion esquema tabla clave tipoClave valor1).1 =
        (pgEliminarDeclaracion esquema tabla clave tipoClave valor2).1) ∧
    (∀ (consulta : String) (params1 params2 : List (String × Value)),
      params1.map Prod.fst = params2.map Prod.fst →
      (pgPrepararConsulta consulta params1).1 = (pgPrepararConsulta consulta params2).1) ∧
    (∀ (esquema : Option String) (tabla clave : String) (tipoColumna : Option String)
        (valor1 valor2 : String),
      pgEsFechaSinHora valor1 = pgEsFechaSinHora valor2 →
      pgObtenerPorClaveSql esquema tabla clave tipoColumna valor1 =
        pgObtenerPorClaveSql esquema tabla clave tipoColumna valor2) := by
  refine ⟨?_, ?_, ?_, ?_, ?_⟩
  · intro esquema tabla d1 d2 h
    simp only [pgCrearSql]
    rw [map_fst_congr (fun k => "\"" ++ k ++ "\"") d1 d2 h,
      map_fst_congr (fun k => ":" ++ k) d1 d2 h]
  · intro esquema tabla clave d1 d2 h
    simp only [pgActualizarSql]
    rw [map_fst_congr (fun k => "\"" ++ k ++ "\" = :" ++ k) d1 d2 h]
  · intro esquema tabla clave tipoClave v1 v2
    rfl
  · intro consulta p1 p2 h
    exact pgPrepararConsultaAux_solo_nombres p1 p2 consulta 1 h
  · intro esquema tabla clave tipoColumna v1 v2 h
    simp only [pgObtenerPorClaveSql, h]

/-- Witness for claim C2 (amended). -/
theorem sql_texto_valores_amended_testigo :
    pgCrearSql Option.none "usuario" [("email", .str "a@b.com"), ("clave", .str "x")] =
      pgCrearSql Option.none "usuario" [("email", .str "c@d.com"), ("clave", .int 9)] ∧
    (pgEliminarDeclaracion Option.none "producto" "codigo" (some "text") "ABC").1 =
      (pgEliminarDeclaracion Option.none "producto" "codigo" (some "text") "XYZ").1 ∧
    pgObtenerPorClaveSql Option.none "ordenes" "fecha" (some "timestamp without time zone")
        "hello" =
      pgObtenerPorClaveSql Option.none "ordenes" "fecha" (some "timestamp without time zone")
        "world" :=
  ⟨sql_texto_valores_amended.1 Option.none "usuario" _ _ (by rfl),
   sql_texto_valores_amended.2.2.1 Option.none "producto" "codigo" (some "text") "ABC" "XYZ",
   sql_texto_valores_amended.2.2.2.2 Option.none "ordenes" "fecha"
     (some "timestamp without time zone") "hello" "world" (by decide)⟩

/-- Claim C3 (code bug): in the legacy string conversion the integer and
floating families degrade to the raw string on parse failure (the
except (ValueError, TypeError) net), but the numeric/decimal family
raises decimal.InvalidOperation, which that net does not catch — for an
unparseable string and a numeric/decimal target the raw string is not
returned and the exception escapes, contradicting the permissive-degrade
contract the except clause was written for. -/
theorem conversion_legado_decimal_bug :
    pgConvertirValor "abc" (some "numeric") = .error .invalidOperation ∧
    pgConvertirValor "abc" (some "decimal") = .error .invalidOperation ∧
    pgConvertirValor "abc" (some "integer") = .ok (.str "abc") ∧
    pgConvertirValor "abc" (some "bigint") = .ok (.str "abc") ∧
    pgConvertirValor "abc" (some "double precision") = .ok (.str "abc") ∧
    pgConvertirValor "abc" (some "real") = .ok (.str "abc") :=
  ⟨rfl, rfl, rfl, rfl, rfl, rfl⟩

/-- One encryption-loop step never rewrites a key currently holding a
`$2`-prefixed string. -/
theorem paso_encriptacion_salta_hashed (encriptar : String → String)
    (acc : List (String × Value)) (campo clave s : String)
    (h : dictGet acc clave = some (.str s)) (hs : pyStartsWith s "$2" = true) :
    dictGet (pasoEncriptacionParametro encriptar acc campo) clave = some (.str s) := by
  simp only [pasoEncriptacionParametro]
  by_cases heq : (if pyStartsWith campo "@" then campo else "@" ++ campo) = clave
  · rw [heq, h]
    simp [hs, h]
  · cases hd : dictGet acc (if pyStartsWith campo "@" then campo else "@" ++ campo) with
    | none => simp only [hd]; exact h
    | some v =>
      cases v with
      | str t =>
        simp only [hd]
        by_cases hc : (!esVacia t && !(pyStartsWith t "$2")) = true
        · rw [if_pos hc]
          rw [dictGet_dictSet_distinta _ _ _ _ (fun hcon => heq hcon.symm)]
          exact h
        · rw [if_neg hc]
          exact h
      | none => simp only [hd]; exact h
      | int n => simp only [hd]; exact h
      | float q => simp only [hd]; exact h
      | decimal q => simp only [hd]; exact h
      | bool b => simp only [hd]; exact h
      | date y m d => simp only [hd]; exact h
      | datetime y m d hh mm ss micro => simp only [hd]; exact h
      | uuid u => simp only [hd]; exact h
      | tiempo hh mm ss => simp only [hd]; exact h
      | dict campos => simp only [hd]; exact h
      | lista elems => simp only [hd]; exact h

/-- The whole routine-site encryption loop skips `$2`-prefixed values. -/
theorem aplicarEncriptacion_salta_hashed (encriptar : String → String) :
    ∀ (campos : List String) (acc : List (String × Value)) (clave s : String),
      dictGet acc clave = some (.str s) → pyStartsWith s "$2" = true →
      dictGet (aplicarEncriptacionParametros encriptar acc campos) clave = some (.str s) := by
  intro campos
  induction campos with
  | nil =>
    intro acc clave s h hs
    exact h
  | cons campo rest ih =>
    intro acc clave s h hs
    have hfold : aplicarEncriptacionParametros encriptar acc (campo :: rest) =
        aplicarEncriptacionParametros encriptar
          (pasoEncriptacionParametro encriptar acc campo) rest := rfl
    rw [hfold]
    exact ih _ clave s (paso_encriptacion_salta_hashed encriptar acc campo clave s h hs) hs

/-- Counterexample to claim C9: the table-insert encryption loop has no
already-hashed check — a `$2`-prefixed value listed in the encrypt-list
is fed to the hashing collaborator again (here a stand-in collaborator
that tags its input), so the stored value is not the original hash. -/
theorem encriptacion_rehash_cx :
    pgAplicarEncriptacion (fun s => "HASH:" ++ s) [("clave", .str "$2b$12$abc")]
        (some "clave") = [("clave", .str "HASH:$2b$12$abc")] ∧
    pgAplicarEncriptacion (fun s => "HASH:" ++ s) [("clave", .str "$2b$12$abc")]
        (some "clave") ≠ [("clave", .str "$2b$12$abc")] := by
  refine ⟨rfl, ?_⟩
  have h1 : pgAplicarEncriptacion (fun s => "HASH:" ++ s) [("clave", .str "$2b$12$abc")]
      (some "clave") = [("clave", .str "HASH:$2b$12$abc")] := rfl
  rw [h1]
  intro h
  have h2 : Value.str "HASH:$2b$12$abc" = Value.str "$2b$12$abc" := by
    injection h with ha hb
    injection ha with hx hy
  have h3 : "HASH:$2b$12$abc" = "$2b$12$abc" := by injection h2
  exact absurd h3 (by decide)

/-- Claim C9 as amended: only the routine-parameter encryption site
skips values already carrying the `$2` BCrypt marker; the table
insert/update path hashes every nonempty listed string, `$2`-prefixed
or not. -/
theorem encriptacion_rehash_amended :
    (∀ (encriptar : String → String) (campos : List String)
        (parametrosGenericos : List (String × Value)) (clave s : String),
      dictGet parametrosGenericos clave = some (.str s) →
      pyStartsWith s "$2" = true →
      dictGet (aplicarEncriptacionParametros encriptar parametrosGenericos campos) clave =
        some (.str s)) ∧
    (∀ (encriptar : String → String) (ce : Option String) (k s : String),
      (pgCamposAEncriptar ce).contains (pyLower k) = true →
      esVacia s = false →
      pgAplicarEncriptacion encriptar [(k, .str s)] ce = [(k, .str (encriptar s))]) := by
  constructor
  · intro encriptar campos parametrosGenericos clave s h hs
    exact aplicarEncriptacion_salta_hashed encriptar campos parametrosGenericos clave s h hs
  · intro encriptar ce k s hk hs
    have hk2 : pyLower k ∈ pgCamposAEncriptar ce := by simpa using hk
    simp [pgAplicarEncriptacion, hk2, pyTruthy, hs, pyStr]

/-- Witness for claim C9 (amended). -/
theorem encriptacion_rehash_amended_testigo :
    dictGet (aplicarEncriptacionParametros (fun s => "HASH:" ++ s)
        [("@clave", .str "$2b$12$abc")] ["clave"]) "@clave" = some (.str "$2b$12$abc") ∧
    pgAplicarEncriptacion (fun s => "HASH:" ++ s) [("clave", .str "secret123")]
        (some "clave") = [("clave", .str "HASH:secret123")] :=
  ⟨encriptacion_rehash_amended.1 (fun s => "HASH:" ++ s) ["clave"]
      [("@clave", .str "$2b$12$abc")] "@clave" "$2b$12$abc" rfl (by decide),
   encriptacion_rehash_amended.2 (fun s => "HASH:" ++ s) (some "clave") "clave" "secret123"
      (by decide) (by decide)⟩

end ApiGenerica
